import Mathlib

/-!
Shallow embedding of the sales-backend repository (Express + Mongoose + xlsx).

The JavaScript value model: spreadsheet cells (as produced by
XLSX.utils.sheet_to_json) are strings, numbers or booleans; absent object
properties are `undefined`, modelled by `Option`.  JavaScript numbers are
modelled as rationals plus a NaN element (`JSNum`); `Number(...)` coercion on
decimal literals is modelled by `parseDecString`.  Collections are lists of
documents; Mongoose operations (create / insertMany / deleteMany / findOne /
deleteOne) are modelled as list operations, with schema validation and the
pre-save hooks of the model files embedded explicitly.
-/

namespace SalesBackend

/-- An exact rational in lowest terms, used to model finite JS numbers.
(Mathlib's ℚ is avoided because its arithmetic does not reduce inside the
kernel, which `decide`-based witnesses need.) -/
structure JSRat where
  n : ℤ
  d : ℕ
deriving DecidableEq, Repr

/-- Normalizing constructor for `JSRat`. -/
def mkJSRat (n : ℤ) (d : ℕ) : JSRat :=
  if d = 0 then ⟨0, 1⟩
  else
    let g := Nat.gcd n.natAbs d
    ⟨n / (g : ℤ), d / g⟩

instance (n : ℕ) : OfNat JSRat n := ⟨⟨n, 1⟩⟩

namespace JSRat

/-- Multiplication (results renormalized). -/
def mul (a b : JSRat) : JSRat := mkJSRat (a.n * b.n) (a.d * b.d)

/-- Addition (results renormalized). -/
def add (a b : JSRat) : JSRat := mkJSRat (a.n * (b.d : ℤ) + b.n * (a.d : ℤ)) (a.d * b.d)

/-- Comparison with an integer bound: `m ≤ a`, by cross-multiplication. -/
def intLe (m : ℤ) (a : JSRat) : Bool := decide (m * (a.d : ℤ) ≤ a.n)

/-- Negation. -/
def neg (a : JSRat) : JSRat := ⟨-a.n, a.d⟩

end JSRat

/-- A JavaScript number: either NaN or an actual (finite, exactly modelled)
value. -/
inductive JSNum where
  | nan : JSNum
  | num : JSRat → JSNum
deriving DecidableEq, Repr

namespace JSNum

/-- JS truthiness of a number: NaN and 0 are falsy. -/
def truthy : JSNum → Bool
  | .nan => false
  | .num q => q.n != 0

/-- JS multiplication: NaN is absorbing. -/
def mul : JSNum → JSNum → JSNum
  | .num a, .num b => .num (a.mul b)
  | _, _ => .nan

/-- JS addition: NaN is absorbing. -/
def add : JSNum → JSNum → JSNum
  | .num a, .num b => .num (a.add b)
  | _, _ => .nan

/-- JS `a || b` on numbers: `a` unless it is falsy (0 or NaN). -/
def orElse (a b : JSNum) : JSNum := if a.truthy then a else b

/-- The Mongoose `min` validator: `v >= min`, which NaN always fails. -/
def ge (a : JSNum) (m : ℤ) : Bool :=
  match a with
  | .nan => false
  | .num q => q.intLe m

end JSNum

/-- A spreadsheet cell value as produced by sheet_to_json. -/
inductive CellVal where
  | str : String → CellVal
  | num : JSRat → CellVal
  | boolV : Bool → CellVal
deriving DecidableEq, Repr

/-- JS truthiness of a cell value: the empty string, 0 and false are falsy. -/
def CellVal.truthy : CellVal → Bool
  | .str s => s != ""
  | .num q => q.n != 0
  | .boolV b => b

/-- JS truthiness of a possibly-absent value: `undefined` is falsy. -/
def truthyO : Option CellVal → Bool
  | none => false
  | some v => v.truthy

/-- One spreadsheet row: an association of column headers to cell values. -/
def Row := List (String × CellVal)

/-- Property access `row[k]`: first binding of the header `k`, if any. -/
def getCell (r : Row) (k : String) : Option CellVal :=
  (r.find? (fun p => p.1 == k)).map (fun p => p.2)

/-- JS `a || b` where both operands may be `undefined`. -/
def jsOr (a b : Option CellVal) : Option CellVal :=
  if truthyO a then a else b

/-- A fallback chain `row[k1] || row[k2] || ... || d` with a literal default,
as written throughout the upload routes. -/
def orChain (r : Row) (ks : List String) (d : CellVal) : CellVal :=
  match ks with
  | [] => d
  | k :: rest =>
    match getCell r k with
    | some v => if v.truthy then v else orChain r rest d
    | none => orChain r rest d

/-- Whitespace test for the trim model. -/
def isWS (c : Char) : Bool :=
  c == ' ' || c == '\t' || c == '\n' || c == '\r'

/-- Char-list trim (both ends); backs the model of `String.prototype.trim`
and of the Mongoose `trim: true` setter. -/
def trimChars (cs : List Char) : List Char :=
  ((cs.dropWhile isWS).reverse.dropWhile isWS).reverse

/-- Model of `s.trim()`. -/
def jsTrim (s : String) : String := String.mk (trimChars s.data)

/-- ASCII lowercasing of one character. -/
def lowerChar (c : Char) : Char :=
  if 'A' ≤ c && c ≤ 'Z' then Char.ofNat (c.toNat + 32) else c

/-- Model of `s.toLowerCase()` (also the Mongoose `lowercase: true` setter). -/
def jsToLower (s : String) : String := String.mk (s.data.map lowerChar)

/-- Digit parsing helper for the decimal-literal model of `Number(...)`. -/
def parseNatDigits : List Char → ℕ → Option ℕ
  | [], acc => some acc
  | c :: cs, acc =>
    if c.isDigit then parseNatDigits cs (acc * 10 + (c.toNat - 48)) else none

/-- Split a char list at the first dot, keeping the remainder. -/
def splitAtDot : List Char → List Char × Option (List Char)
  | [] => ([], none)
  | c :: cs =>
    if c == '.' then ([], some cs)
    else
      let p := splitAtDot cs
      (c :: p.1, p.2)

/-- Parse an unsigned decimal literal (digits with an optional fraction part).
Models the numeric grammar accepted by JS `Number(...)` on plain decimals. -/
def parseUnsignedDec (cs : List Char) : Option JSRat :=
  match splitAtDot cs with
  | (ds, none) =>
    if ds.isEmpty then none
    else (parseNatDigits ds 0).map (fun n => mkJSRat (n : ℤ) 1)
  | (ds, some fs) =>
    if fs.any (fun c => c == '.') then none
    else if ds.isEmpty && fs.isEmpty then none
    else
      match parseNatDigits ds 0, parseNatDigits fs 0 with
      | some i, some f => some (mkJSRat ((i : ℤ) * (10 : ℤ) ^ fs.length + (f : ℤ)) (10 ^ fs.length))
      | _, _ => none

/-- Parse a signed decimal literal. -/
def parseDecString (s : String) : Option JSRat :=
  match s.data with
  | '-' :: rest => (parseUnsignedDec rest).map JSRat.neg
  | '+' :: rest => parseUnsignedDec rest
  | cs => parseUnsignedDec cs

/-- JS `Number(s)` for a string: whitespace-only strings give 0, otherwise
a decimal parse, with NaN for non-numeric text. -/
def jsStringToNumber (s : String) : JSNum :=
  let t := jsTrim s
  if t == "" then .num 0
  else
    match parseDecString t with
    | some q => .num q
    | none => .nan

/-- JS `Number(v)` on a defined value. -/
def toNumber : CellVal → JSNum
  | .str s => jsStringToNumber s
  | .num q => .num q
  | .boolV b => .num (if b then ⟨1, 1⟩ else ⟨0, 1⟩)

/-- JS `Number(v)` where `v` may be `undefined` (which gives NaN). -/
def toNumberO : Option CellVal → JSNum
  | none => .nan
  | some v => toNumber v

/-- Decimal rendering of a natural number. -/
def natToString (n : ℕ) : String := String.mk (Nat.toDigits 10 n)

/-- Decimal rendering of an integer. -/
def intToString (i : ℤ) : String :=
  if i < 0 then "-" ++ natToString i.natAbs else natToString i.natAbs

/-- Rendering of a rational; integers render as in JS `String(...)`
(non-integral rationals use a fraction notation, a model artifact). -/
def ratToString (q : JSRat) : String :=
  if q.d = 1 then intToString q.n
  else intToString q.n ++ "/" ++ natToString q.d

/-- JS `String(v)` on a defined value (also the Mongoose String cast). -/
def jsStringOfCell : CellVal → String
  | .str s => s
  | .num q => ratToString q
  | .boolV b => if b then "true" else "false"

/-- JS `String(v)` where `v` may be `undefined`. -/
def jsStringO : Option CellVal → String
  | none => "undefined"
  | some v => jsStringOfCell v

/-- A workbook: the ordered sheets, each a name with its rows
(`workbook.SheetNames` / `XLSX.utils.sheet_to_json`). -/
def Workbook := List (String × List Row)

/-! ## Product import: row normalization (routes/excelUploadRoute.js, POST /api/upload-excel)

The normalized record produced for each row inside the sheet loop.  Field
types follow the coercion applied in the source: `String(...)` fields are
strings, `Number(...)` fields are JS numbers, the rest keep the raw value
picked by the fallback chain. -/

structure ProductRec where
  brand : CellVal
  itemCode : String
  modelNumber : String
  ean : String
  description : CellVal
  rspVat : JSNum
  price : JSNum
  department : CellVal
  status : CellVal
  cost : JSNum
  rsp : JSNum
  margin : JSNum
deriving DecidableEq, Repr

/-- The per-row normalizer of POST /api/upload-excel, one fallback chain per
canonical field, with `brand` defaulting to the enclosing sheet's name. -/
def normalizeProductRow (sheetName : String) (r : Row) : ProductRec :=
  { brand := orChain r ["Brand", "brand"] (.str sheetName)
    itemCode := jsStringOfCell (orChain r ["Item Code", "itemCode", "item code"] (.str ""))
    modelNumber := jsTrim (jsStringOfCell
      (orChain r ["Model ", "Model", "modelNumber", "Model no.", "model number"] (.str "")))
    ean := jsStringOfCell (orChain r ["EAN", "ean"] (.str ""))
    description := orChain r ["Item Description", "description", "Description"] (.str "")
    rspVat := toNumber (orChain r [" RSP+Vat ", "RSP+Vat", "rspVat", "RSP + VAT"] (.num 0))
    price := toNumber (orChain r [" RSP+Vat ", "RSP+Vat", "rspVat", "RSP + VAT"] (.num 0))
    department := orChain r ["Department", "department"] (.str "")
    status := orChain r ["Status", "status"] (.str "Active")
    cost := toNumber (orChain r [" Cost ", "Cost", "cost"] (.num 0))
    rsp := toNumber (orChain r [" RSP ", "RSP", "rsp"] (.num 0))
    margin := toNumber (orChain r [" New  Margin ", "Margin", "margin"] (.num 0)) }

/-- The canonical target fields of the product normalizer. -/
inductive PField where
  | brand | itemCode | modelNumber | ean | description
  | rspVat | price | department | status | cost | rsp | margin
deriving DecidableEq, Repr

/-- The ordered candidate header spellings tried for each target field
(the keys of the fallback chains above, defaults excluded). -/
def PField.candidates : PField → List String
  | .brand => ["Brand", "brand"]
  | .itemCode => ["Item Code", "itemCode", "item code"]
  | .modelNumber => ["Model ", "Model", "modelNumber", "Model no.", "model number"]
  | .ean => ["EAN", "ean"]
  | .description => ["Item Description", "description", "Description"]
  | .rspVat => [" RSP+Vat ", "RSP+Vat", "rspVat", "RSP + VAT"]
  | .price => [" RSP+Vat ", "RSP+Vat", "rspVat", "RSP + VAT"]
  | .department => ["Department", "department"]
  | .status => ["Status", "status"]
  | .cost => [" Cost ", "Cost", "cost"]
  | .rsp => [" RSP ", "RSP", "rsp"]
  | .margin => [" New  Margin ", "Margin", "margin"]

/-- A common value type to read any field of a normalized product record. -/
inductive PVal where
  | s : String → PVal
  | c : CellVal → PVal
  | jn : JSNum → PVal
deriving DecidableEq, Repr

/-- Projection of a normalized record onto one target field. -/
def ProductRec.fieldVal (p : ProductRec) : PField → PVal
  | .brand => .c p.brand
  | .itemCode => .s p.itemCode
  | .modelNumber => .s p.modelNumber
  | .ean => .s p.ean
  | .description => .c p.description
  | .rspVat => .jn p.rspVat
  | .price => .jn p.price
  | .department => .c p.department
  | .status => .c p.status
  | .cost => .jn p.cost
  | .rsp => .jn p.rsp
  | .margin => .jn p.margin

/-! ## Product import: the sheet loop and collection update

POST /api/upload-excel iterates `workbook.SheetNames`, normalizes each
sheet's rows with the sheet's name, accumulates into `allData`, then runs
`Product.deleteMany` with the empty filter followed by
`Product.insertMany allData`. -/

/-- The `allData` accumulation loop of POST /api/upload-excel. -/
def uploadExcelBatch (wb : Workbook) : List ProductRec :=
  wb.foldl (fun acc s => acc ++ s.2.map (normalizeProductRow s.1)) []

/-- The collection effect of POST /api/upload-excel: delete every existing
product (the empty `deleteMany` filter matches all, so none survives the
deletion), then insert the accumulated batch. -/
def importProducts (wb : Workbook) (store : List ProductRec) : List ProductRec :=
  (store.filter (fun _ => false)) ++ uploadExcelBatch wb

/-! ## Product import: the fixed-key variant (routes/uploadProducts.js)

POST /upload-products reads only the first sheet and maps fixed headers with
`Number(...)` coercions, then also does `deleteMany` + `insertMany`. -/

structure ProductRecFixed where
  brand : Option CellVal
  modelNumber : JSNum
  itemCode : JSNum
  ean : JSNum
  description : Option CellVal
  rspVat : JSNum
deriving DecidableEq, Repr

/-- The row mapping of POST /upload-products. -/
def mapProductRowFixed (r : Row) : ProductRecFixed :=
  { brand := getCell r "Brand"
    modelNumber := toNumberO (getCell r "Model")
    itemCode := toNumberO (getCell r "Item Code")
    ean := toNumberO (getCell r "EAN")
    description := getCell r "Item Description"
    rspVat := toNumberO (getCell r "RSP+Vat") }

/-- The collection effect of POST /upload-products (first sheet only). -/
def importProductsFixed (wb : Workbook) (store : List ProductRecFixed) :
    List ProductRecFixed :=
  (store.filter (fun _ => false)) ++ ((wb.headD ("", [])).2.map mapProductRowFixed)

/-! ## Leave documents (models/Leave.js and models/leaves.js)

A leave document as stored in the `leaves` collection.  Fields not referenced
by any claim (approvedBy, approvedAt, rejectionReason, timestamps) are
omitted.  `Option` fields model properties that may be absent before
validation; `status` and `leaveType` always receive a value (a schema default
or a cast body value). -/

structure LeaveDoc where
  salesmanId : Option String
  salesmanName : Option String
  fromDate : Option String
  toDate : Option String
  date : Option String
  reason : Option String
  status : String
  leaveType : String
  isCritical : Bool
deriving DecidableEq, Repr

/-- The Mongoose `required` check for a String path: fails when the value is
absent or the empty string. -/
def reqStr : Option String → Bool
  | none => false
  | some s => s != ""

/-- The `status` enum of the Leave schema. -/
def leaveStatusEnum : List String := ["pending", "approved", "rejected"]

/-- The `leaveType` enum of the Leave schema. -/
def leaveTypeEnum : List String := ["sick", "personal", "vacation", "emergency", "other"]

/-- Document validation of the Leave schema: required salesmanId,
salesmanName, fromDate and toDate, plus the two enum checks. -/
def validateLeave (d : LeaveDoc) : Bool :=
  reqStr d.salesmanId && reqStr d.salesmanName && reqStr d.fromDate && reqStr d.toDate
    && leaveStatusEnum.contains d.status && leaveTypeEnum.contains d.leaveType

/-- The Leave pre-save hook: always set `date` to `fromDate`. -/
def presaveLeave (d : LeaveDoc) : LeaveDoc := { d with date := d.fromDate }

/-- The (salesmanId, fromDate) key of each stored leave, in collection order. -/
def leavePairs (store : List LeaveDoc) : List (Option String × Option String) :=
  store.map (fun d => (d.salesmanId, d.fromDate))

/-! ## Bulk leave import (routes/uploadLeaves.js, POST /upload-leaves) -/

/-- A defined non-string value: calling `.toLowerCase()` on it raises a
TypeError (numbers and booleans have no such method). -/
def isNonStringCell : Option CellVal → Bool
  | some (.num _) => true
  | some (.boolV _) => true
  | _ => false

/-- `v?.toLowerCase() || dflt`: the default for an absent or empty value,
the lowercased string otherwise.  Only called where `v` is absent or a
string (the throwing case is handled by `rowThrowsLeave`). -/
def lowerOrDefault (o : Option CellVal) (dflt : String) : String :=
  match o with
  | some (.str s) => if jsToLower s == "" then dflt else jsToLower s
  | _ => dflt

/-- Rows on which the upload-leaves mapper raises: `r.LeaveType?.toLowerCase()`
or `r.Status?.toLowerCase()` applied to a defined non-string cell. -/
def rowThrowsLeave (r : Row) : Bool :=
  isNonStringCell (getCell r "LeaveType") || isNonStringCell (getCell r "Status")

/-- The row mapping of POST /upload-leaves, on rows where it does not raise.
The Mongoose String cast plus the schema's trim setters are applied to the
fields that carry them (salesmanId, salesmanName, reason). -/
def mapLeaveRowTotal (r : Row) : LeaveDoc :=
  let fromDate := jsOr (getCell r "FromDate") (getCell r "fromDate")
  let toDate := jsOr (getCell r "ToDate") (jsOr (getCell r "toDate") fromDate)
  { salesmanId := some (jsTrim (jsStringOfCell (orChain r ["SalesmanID"] (.str "unknown"))))
    salesmanName := some (jsTrim (jsStringOfCell (orChain r ["Salesman"] (.str "Unknown"))))
    fromDate := fromDate.map jsStringOfCell
    toDate := toDate.map jsStringOfCell
    date := fromDate.map jsStringOfCell
    reason := some (jsTrim (jsStringOfCell (orChain r ["Reason"] (.str ""))))
    status := lowerOrDefault (getCell r "Status") "approved"
    leaveType := lowerOrDefault (getCell r "LeaveType") "other"
    isCritical := getCell r "IsCritical" == some (.str "yes")
      || getCell r "IsCritical" == some (.boolV true) }

/-- The (salesmanId, fromDate) key a row will carry once mapped. -/
def rowPair (r : Row) : Option String × Option String :=
  ((mapLeaveRowTotal r).salesmanId, (mapLeaveRowTotal r).fromDate)

inductive UploadLeavesResp where
  | okCount : ℕ → UploadLeavesResp
  | emptySheet : UploadLeavesResp
  | serverError : UploadLeavesResp
deriving DecidableEq, Repr

/-- POST /upload-leaves: map every first-sheet row and `insertMany` the batch.
`insertMany` (default ordered mode) validates the whole batch up front and
inserts nothing on a validation failure.  After the startup
`dropIndex("salesmanId_1_fromDate_1")` in src/server.js no unique index
remains on (salesmanId, fromDate), so every valid document is appended with
no duplicate check. -/
def uploadLeavesHandler (rows : List Row) (store : List LeaveDoc) :
    UploadLeavesResp × List LeaveDoc :=
  if rows.isEmpty then (.emptySheet, store)
  else if rows.any rowThrowsLeave then (.serverError, store)
  else if (rows.map mapLeaveRowTotal).all validateLeave then
    (.okCount (rows.map mapLeaveRowTotal).length, store ++ rows.map mapLeaveRowTotal)
  else (.serverError, store)

/-! ## Single leave create, src/server.js POST /api/leaves -/

/-- The request body fields the src/server.js handler destructures. -/
structure LeaveCreateBody where
  salesmanId : Option CellVal
  salesmanName : Option CellVal
  date : Option CellVal
  reason : Option CellVal

inductive PostLeaveResp where
  | created : PostLeaveResp
  | missingField : PostLeaveResp
  | duplicate : PostLeaveResp
  | saveError : PostLeaveResp
deriving DecidableEq, Repr

/-- The document `Leave.create` receives in src/server.js: salesmanId,
salesmanName, date, reason, and a literal status of "Pending"; fromDate and
toDate are not supplied, and leaveType/isCritical take schema defaults. -/
def serverLeaveDoc (b : LeaveCreateBody) : LeaveDoc :=
  { salesmanId := some (jsTrim (jsStringO b.salesmanId))
    salesmanName := some (jsTrim (jsStringO b.salesmanName))
    fromDate := none
    toDate := none
    date := some (jsStringO b.date)
    reason := some (jsTrim (jsStringO b.reason))
    status := "Pending"
    leaveType := "other"
    isCritical := false }

/-- src/server.js POST /api/leaves: four required-field checks, a duplicate
pre-check on (salesmanId, date), then `Leave.create` (validation before the
pre-save hook; a validation failure is caught and answered with 500). -/
def postLeavesServer (b : LeaveCreateBody) (store : List LeaveDoc) :
    PostLeaveResp × List LeaveDoc :=
  if !truthyO b.salesmanId then (.missingField, store)
  else if !truthyO b.salesmanName then (.missingField, store)
  else if !truthyO b.date then (.missingField, store)
  else if !truthyO b.reason then (.missingField, store)
  else if store.any (fun d =>
      d.salesmanId == some (jsTrim (jsStringO b.salesmanId))
        && d.date == some (jsStringO b.date)) then (.duplicate, store)
  else
    let doc := serverLeaveDoc b
    if validateLeave doc then (.created, store ++ [presaveLeave doc])
    else (.saveError, store)

/-! ## Single leave create, the src/unnamed/part_004 variant of POST /api/leaves -/

/-- The body fields relevant to the Leave schema; remaining body properties
(isCritical and the approval fields) keep their schema defaults and do not
affect any claim. -/
structure LeaveBody where
  salesmanId : Option CellVal
  salesmanName : Option CellVal
  fromDate : Option CellVal
  toDate : Option CellVal
  date : Option CellVal
  reason : Option CellVal
  status : Option CellVal
  leaveType : Option CellVal

/-- `new Leave(req.body)`: cast each supplied field, apply schema defaults
for status ("approved" in models/Leave.js) and leaveType ("other"). -/
def buildLeaveDoc (b : LeaveBody) : LeaveDoc :=
  { salesmanId := b.salesmanId.map (fun v => jsTrim (jsStringOfCell v))
    salesmanName := b.salesmanName.map (fun v => jsTrim (jsStringOfCell v))
    fromDate := b.fromDate.map jsStringOfCell
    toDate := b.toDate.map jsStringOfCell
    date := b.date.map jsStringOfCell
    reason := b.reason.map (fun v => jsTrim (jsStringOfCell v))
    status := match b.status with | none => "approved" | some v => jsStringOfCell v
    leaveType := match b.leaveType with | none => "other" | some v => jsStringOfCell v
    isCritical := false }

/-- One conjunct of a Mongo filter built from a request body value: an
`undefined` value is stripped from the filter (matches anything), a defined
value must equal the stored field after the schema cast. -/
def optMatchBy (cast : CellVal → String) (q : Option CellVal) (field : Option String) : Bool :=
  match q with
  | none => true
  | some v => field == some (cast v)

/-- The part_004 POST /api/leaves: duplicate pre-check on
(body.salesmanId, body.date), then `new Leave(req.body).save()`.  This
deployment keeps the unique index on (salesmanId, fromDate) declared by the
Leave schema, so a save colliding on that key raises E11000 (answered 500). -/
def postLeavesPart4 (b : LeaveBody) (store : List LeaveDoc) :
    PostLeaveResp × List LeaveDoc :=
  if store.any (fun d =>
      optMatchBy (fun v => jsTrim (jsStringOfCell v)) b.salesmanId d.salesmanId
        && optMatchBy jsStringOfCell b.date d.date) then (.duplicate, store)
  else if validateLeave (buildLeaveDoc b) then
    if store.any (fun d =>
        d.salesmanId == (buildLeaveDoc b).salesmanId
          && d.fromDate == (buildLeaveDoc b).fromDate) then
      (.saveError, store)
    else (.created, store ++ [presaveLeave (buildLeaveDoc b)])
  else (.saveError, store)

/-! ## Sale documents (models/Sale.js, the enhanced schema) -/

/-- A sale document.  Fields not referenced by any claim (modelNumber and the
timestamps) are omitted. -/
structure SaleDoc where
  salesmanId : String
  salesmanName : String
  date : String
  brand : String
  itemCode : String
  quantity : JSNum
  price : JSNum
  totalAmount : Option JSNum
deriving DecidableEq, Repr

/-- JS truthiness of a possibly-absent number. -/
def truthyON : Option JSNum → Bool
  | none => false
  | some x => x.truthy

/-- The Sale pre-save hook: compute `totalAmount = quantity * price` when
quantity and price are truthy and totalAmount is not. -/
def presaveSale (d : SaleDoc) : SaleDoc :=
  if d.quantity.truthy && d.price.truthy && !(truthyON d.totalAmount) then
    { d with totalAmount := some (d.quantity.mul d.price) }
  else d

/-- Sale schema validation: required non-empty strings, quantity with
`min: 1`, price with `min: 0`, and `min: 0` on totalAmount when present. -/
def validateSale (d : SaleDoc) : Bool :=
  d.salesmanId != "" && d.salesmanName != "" && d.date != "" && d.brand != ""
    && d.itemCode != "" && d.quantity.ge 1 && d.price.ge 0
    && (match d.totalAmount with | none => true | some t => t.ge 0)

/-! ## Single sale create, src/server.js POST /api/sales -/

structure SaleBody where
  salesmanId : Option CellVal
  salesmanName : Option CellVal
  date : Option CellVal
  brand : Option CellVal
  itemCode : Option CellVal
  quantity : Option CellVal
  price : Option CellVal
  totalAmount : Option CellVal

inductive PostSaleResp where
  | created : PostSaleResp
  | missingField : PostSaleResp
  | saveError : PostSaleResp
deriving DecidableEq, Repr

/-- The document built by src/server.js POST /api/sales:
`String(itemCode)`, `Number(quantity)`, `Number(price)` and
`Number(totalAmount || quantity * price)`, with the schema's trim casts. -/
def saleDocOfBody (b : SaleBody) : SaleDoc :=
  { salesmanId := jsTrim (jsStringO b.salesmanId)
    salesmanName := jsTrim (jsStringO b.salesmanName)
    date := jsStringO b.date
    brand := jsTrim (jsStringO b.brand)
    itemCode := jsTrim (jsStringO b.itemCode)
    quantity := toNumberO b.quantity
    price := toNumberO b.price
    totalAmount := some (if truthyO b.totalAmount then toNumberO b.totalAmount
      else (toNumberO b.quantity).mul (toNumberO b.price)) }

/-- src/server.js POST /api/sales: seven required-field truthiness checks,
then `Sale.create` (validation, then the pre-save hook, then insert). -/
def postSalesServer (b : SaleBody) (store : List SaleDoc) :
    PostSaleResp × List SaleDoc :=
  if !truthyO b.salesmanId then (.missingField, store)
  else if !truthyO b.salesmanName then (.missingField, store)
  else if !truthyO b.date then (.missingField, store)
  else if !truthyO b.brand then (.missingField, store)
  else if !truthyO b.itemCode then (.missingField, store)
  else if !truthyO b.quantity then (.missingField, store)
  else if !truthyO b.price then (.missingField, store)
  else
    let d := saleDocOfBody b
    if validateSale d then (.created, store ++ [presaveSale d])
    else (.saveError, store)

/-! ## Stats aggregation, src/server.js GET /api/stats -/

/-- One sale's contribution to the stats total:
`s.totalAmount || s.quantity * s.price`. -/
def statsContribution (s : SaleDoc) : JSNum :=
  match s.totalAmount with
  | some t => if t.truthy then t else s.quantity.mul s.price
  | none => s.quantity.mul s.price

/-- The `reduce` of GET /api/stats over the whole sales collection. -/
def statsTotalAmount (sales : List SaleDoc) : JSNum :=
  sales.foldl (fun acc s => acc.add (statsContribution s)) (.num 0)

/-- The quantity-times-price sum the spec describes for legacy records. -/
def sumQuantityPrice (sales : List SaleDoc) : JSNum :=
  sales.foldl (fun acc s => acc.add (s.quantity.mul s.price)) (.num 0)

/-! ## Bulk sale import row mappings -/

/-- The object literal built per row by the sale importers, before any
schema cast (`insertMany` receives these). -/
structure RawSale where
  salesmanId : Option CellVal
  salesmanName : Option CellVal
  date : Option CellVal
  brand : Option CellVal
  modelNumber : Option CellVal
  itemCode : Option CellVal
  quantity : JSNum
  price : JSNum
  totalAmount : JSNum
deriving DecidableEq, Repr

/-- The row mapping of routes/uploadSales.js (POST /upload-sales): bare
`Number(...)` coercions with no fallback. -/
def mapSaleRowStrict (r : Row) : RawSale :=
  { salesmanId := jsOr (getCell r "Salesman ID") (getCell r "Salesman")
    salesmanName := getCell r "Salesman"
    date := getCell r "Date"
    brand := getCell r "Brand"
    modelNumber := getCell r "Model No"
    itemCode := getCell r "Item Code"
    quantity := toNumberO (getCell r "Quantity")
    price := toNumberO (getCell r "RSP+VAT")
    totalAmount := toNumberO (getCell r "Total Amount") }

/-- The row mapping of the src/unnamed/part_002 variant of POST /upload-sales:
`Number(r.Quantity) || 1`, `Number(r.Price) || Number(r["RSP+VAT"]) || 0`,
and `Number(r["Total Amount"]) || quantity * price`. -/
def mapSaleRowTolerant (r : Row) : RawSale :=
  let quantity := (toNumberO (getCell r "Quantity")).orElse (.num 1)
  let price := (toNumberO (getCell r "Price")).orElse
    ((toNumberO (getCell r "RSP+VAT")).orElse (.num 0))
  let totalAmount := (toNumberO (getCell r "Total Amount")).orElse (quantity.mul price)
  { salesmanId := some (orChain r ["SalesmanID"] (.str "unknown"))
    salesmanName := some (orChain r ["Salesman"] (.str "Unknown"))
    date := getCell r "Date"
    brand := some (orChain r ["Brand"] (.str ""))
    modelNumber := some (orChain r ["Model No"] (.str ""))
    itemCode := some (orChain r ["Item Code"] (.str ""))
    quantity := quantity
    price := price
    totalAmount := totalAmount }

/-! ## User documents and bulk user import (models/User.js, routes/uploadUsers.js) -/

/-- A user document.  Fields not referenced by any claim (email, phone,
isActive, reset tokens, timestamps) are omitted.  `username` is stored
lowercased and trimmed by the schema setters. -/
structure UserRec where
  username : String
  password : String
  name : String
  role : String
  salesmanId : Option String
deriving DecidableEq, Repr

/-- Required-field test of the upload loop:
`!r.Username || !r.Password || !r.Name || !r.Role`. -/
def userRowMissing (r : Row) : Bool :=
  !truthyO (getCell r "Username") || !truthyO (getCell r "Password")
    || !truthyO (getCell r "Name") || !truthyO (getCell r "Role")

/-- The username key a row resolves to: the schema's lowercase and trim
setters, applied both when storing and when casting the duplicate-check
filter. -/
def usernameKey (r : Row) : String :=
  jsToLower (jsTrim (jsStringO (getCell r "Username")))

/-- Does the username of this row already exist in the store? -/
def usernameTaken (r : Row) (store : List UserRec) : Bool :=
  store.any (fun u => u.username == usernameKey r)

/-- Is the Role cell a string (so that `.toLowerCase()` does not raise)? -/
def roleIsString (r : Row) : Bool :=
  match getCell r "Role" with
  | some (.str _) => true
  | _ => false

/-- The `role` enum of the User schema. -/
def userRoleEnum : List String := ["admin", "salesman"]

/-- Outcome of processing one row of the user import. -/
inductive UStep where
  | skip : UStep
  | ins : UserRec → UStep
  | err : UStep
deriving DecidableEq, Repr

/-- One iteration of the upload-users loop: skip on missing fields, raise on
a non-string Role (`r.Role.toLowerCase()`), skip on a duplicate username,
then `User.create` with the schema's enum validation, the
salesman-needs-salesmanId pre-save check, and the unique sparse index on
salesmanId (each failure rejects the whole request). -/
def stepUser (r : Row) (store : List UserRec) : UStep :=
  if userRowMissing r then .skip
  else
    match getCell r "Role" with
    | some (.str roleRaw) =>
      let role := jsToLower roleRaw
      if usernameTaken r store then .skip
      else if !(userRoleEnum.contains role) then .err
      else
        let sid := if role == "salesman" then
            (getCell r "SalesmanId").map (fun v => jsTrim (jsStringOfCell v))
          else none
        if role == "salesman" && !(reqStr sid) then .err
        else if (match sid with
            | some s => store.any (fun u => u.salesmanId == some s)
            | none => false) then .err
        else .ins
          { username := usernameKey r
            password := jsStringO (getCell r "Password")
            name := jsTrim (jsStringO (getCell r "Name"))
            role := role
            salesmanId := sid }
    | _ => .err

/-- The upload-users loop with its two counters; a thrown error aborts the
remaining rows but keeps the users already created. -/
def processUserRows : List Row → ℕ → ℕ → List UserRec → (Option (ℕ × ℕ)) × List UserRec
  | [], i, s, store => (some (i, s), store)
  | r :: rest, i, s, store =>
    match stepUser r store with
    | .skip => processUserRows rest i (s + 1) store
    | .ins u => processUserRows rest (i + 1) s (store ++ [u])
    | .err => (none, store)

inductive UploadUsersResp where
  | summary : ℕ → ℕ → ℕ → UploadUsersResp
  | err : UploadUsersResp
deriving DecidableEq, Repr

/-- POST /upload-users: run the loop over the first sheet's rows and answer
with the inserted/skipped/totalRows summary, or 500 if a row threw. -/
def uploadUsersHandler (rows : List Row) (store : List UserRec) :
    UploadUsersResp × List UserRec :=
  match processUserRows rows 0 0 store with
  | (some p, store2) => (.summary p.1 p.2 rows.length, store2)
  | (none, store2) => (.err, store2)

/-! ## Salesman deletion cascade, src/server.js DELETE /api/users/:salesmanId -/

/-- The four collections the cascade can touch. -/
structure AppState where
  users : List UserRec
  sales : List SaleDoc
  leaves : List LeaveDoc
  products : List ProductRec
deriving Repr

/-- `User.deleteOne` on a salesmanId filter: remove the first matching
document, if any. -/
def deleteOneUser (sid : String) : List UserRec → List UserRec
  | [] => []
  | u :: rest => if u.salesmanId == some sid then rest else u :: deleteOneUser sid rest

/-- src/server.js DELETE /api/users/:salesmanId: `User.deleteOne`,
`Sale.deleteMany` and `Leave.deleteMany` on the same salesmanId (the schema
trim cast applies to the filter value); the handler then answers success
unconditionally. -/
def deleteUserCascade (sid : String) (st : AppState) : AppState :=
  { users := deleteOneUser (jsTrim sid) st.users
    sales := st.sales.filter (fun s => !(s.salesmanId == jsTrim sid))
    leaves := st.leaves.filter (fun l => !(l.salesmanId == some (jsTrim sid)))
    products := st.products }

/-! ## Concrete fixtures used by witnesses and counterexamples -/

/-- A well-formed leave row (used twice to build a duplicate batch). -/
def leaveRowS1 : Row :=
  [("SalesmanID", .str "S1"), ("Salesman", .str "Alice"), ("FromDate", .str "2024-02-15")]

/-- A second leave row with a different start date. -/
def leaveRowS1b : Row :=
  [("SalesmanID", .str "S1"), ("Salesman", .str "Alice"), ("FromDate", .str "2024-02-16")]

/-- The leave-create body of the C2 scenario (salesmanId "S1",
fromDate "2024-02-15"). -/
def leaveBodyS1 : LeaveBody :=
  { salesmanId := some (.str "S1"), salesmanName := some (.str "Alice")
    fromDate := some (.str "2024-02-15"), toDate := some (.str "2024-02-15")
    date := some (.str "2024-02-15"), reason := some (.str "personal")
    status := none, leaveType := none }

/-- A sale-create body with no totalAmount supplied (quantity 2, price 50). -/
def saleBodyNoTotal : SaleBody :=
  { salesmanId := some (.str "S1"), salesmanName := some (.str "Alice")
    date := some (.str "2024-01-05"), brand := some (.str "X")
    itemCode := some (.str "A1"), quantity := some (.num 2)
    price := some (.num 50), totalAmount := none }

/-- A stored sale with no totalAmount (quantity 3, price 10). -/
def saleDocNoTotal : SaleDoc :=
  { salesmanId := "S1", salesmanName := "Alice", date := "2024-01-05"
    brand := "X", itemCode := "A1", quantity := .num ⟨3, 1⟩
    price := .num ⟨10, 1⟩, totalAmount := none }

/-- A sales row whose Quantity cell holds non-numeric text. -/
def rowQtyAbc : Row :=
  [("SalesmanID", .str "S1"), ("Salesman", .str "Alice"),
   ("Date", .str "2024-01-05"), ("Quantity", .str "abc")]

/-- A sales row whose Price, RSP+VAT and Total Amount cells hold
non-numeric text. -/
def rowPriceAbc : Row :=
  [("Salesman", .str "Alice"), ("Price", .str "abc"),
   ("RSP+VAT", .str "n/a"), ("Total Amount", .str "oops")]

/-- A product row whose price column holds non-numeric text. -/
def rowRspAbc : Row := [(" RSP+Vat ", .str "abc")]

/-- A user row whose Role is not in the schema enum. -/
def userRowManager : Row :=
  [("Username", .str "u1"), ("Password", .str "p"),
   ("Name", .str "N"), ("Role", .str "manager")]

/-- A valid admin user row. -/
def userRowA : Row :=
  [("Username", .str "alice"), ("Password", .str "p1"),
   ("Name", .str "Alice"), ("Role", .str "Admin")]

/-- A user row missing its Password (skipped). -/
def userRowB : Row :=
  [("Username", .str "bob"), ("Name", .str "Bob"), ("Role", .str "admin")]

/-- A user row whose username duplicates an existing user (skipped). -/
def userRowC : Row :=
  [("Username", .str "Carol"), ("Password", .str "p3"),
   ("Name", .str "Carol"), ("Role", .str "salesman"), ("SalesmanId", .str "SM1")]

/-- A valid admin user row. -/
def userRowD : Row :=
  [("Username", .str "dave"), ("Password", .str "p4"),
   ("Name", .str "Dave"), ("Role", .str "admin")]

/-- A valid admin user row. -/
def userRowE : Row :=
  [("Username", .str "eve"), ("Password", .str "p5"),
   ("Name", .str "Eve"), ("Role", .str "admin")]

/-- The pre-existing user whose username row C collides with. -/
def userCarol : UserRec :=
  { username := "carol", password := "x", name := "C", role := "admin", salesmanId := none }

/-- A stored salesman user. -/
def userSm1 : UserRec :=
  { username := "frank", password := "f", name := "Frank", role := "salesman"
    salesmanId := some "SM1" }

/-- A stored sale of salesman SM1. -/
def saleSm1 : SaleDoc :=
  { salesmanId := "SM1", salesmanName := "Frank", date := "2024-01-05"
    brand := "X", itemCode := "A1", quantity := .num ⟨1, 1⟩
    price := .num ⟨5, 1⟩, totalAmount := some (.num ⟨5, 1⟩) }

/-- A stored sale of another salesman. -/
def saleSm2 : SaleDoc :=
  { salesmanId := "SM2", salesmanName := "Gina", date := "2024-01-06"
    brand := "Y", itemCode := "B2", quantity := .num ⟨2, 1⟩
    price := .num ⟨7, 1⟩, totalAmount := some (.num ⟨14, 1⟩) }

/-- A stored leave of salesman SM1. -/
def leaveSm1 : LeaveDoc :=
  { salesmanId := some "SM1", salesmanName := some "Frank"
    fromDate := some "2024-02-01", toDate := some "2024-02-01"
    date := some "2024-02-01", reason := some "", status := "approved"
    leaveType := "other", isCritical := false }

/-- A stored leave of another salesman. -/
def leaveSm2 : LeaveDoc :=
  { salesmanId := some "SM2", salesmanName := some "Gina"
    fromDate := some "2024-02-02", toDate := some "2024-02-02"
    date := some "2024-02-02", reason := some "", status := "approved"
    leaveType := "other", isCritical := false }

/-- A stored product. -/
def productP1 : ProductRec :=
  { brand := .str "X", itemCode := "A1", modelNumber := "", ean := ""
    description := .str "", rspVat := .num ⟨5, 1⟩, price := .num ⟨5, 1⟩
    department := .str "", status := .str "Active", cost := .num ⟨0, 1⟩
    rsp := .num ⟨0, 1⟩, margin := .num ⟨0, 1⟩ }

/-- A product row carrying no brand column under either spelling. -/
def rowNoBrand : Row := [("EAN", .str "111"), ("Item Code", .str "A1")]

/-- A two-sheet workbook for the product import. -/
def wbTwoSheets : Workbook :=
  [("Audio", [rowNoBrand]),
   ("Video", [[("Brand", .str "Bx"), ("Item Code", .str "B2")]])]

/-- An app state holding records of two salesmen plus a product. -/
def stTwoSalesmen : AppState :=
  { users := [userCarol, userSm1], sales := [saleSm1, saleSm2]
    leaves := [leaveSm1, leaveSm2], products := [productP1] }

/-! ## Helper lemmas -/

theorem filter_const_false {α : Type} (l : List α) : l.filter (fun _ => false) = [] := by
  induction l with
  | nil => rfl
  | cons a t ih => simp [List.filter, ih]

theorem countP_zero_filter {α : Type} (p : α → Bool) (l : List α)
    (h : l.countP p = 0) : l.filter (fun a => !(p a)) = l := by
  induction l with
  | nil => rfl
  | cons a t ih =>
    rw [List.countP_cons] at h
    by_cases hpa : p a
    · simp [hpa] at h
    · simp only [List.filter_cons]
      simp only [hpa] at h ⊢
      simp [ih h]

theorem deleteOneUser_eq_filter (sid : String) (l : List UserRec)
    (h : l.countP (fun u => u.salesmanId == some sid) ≤ 1) :
    deleteOneUser sid l = l.filter (fun u => !(u.salesmanId == some sid)) := by
  induction l with
  | nil => rfl
  | cons u t ih =>
    by_cases hu : (u.salesmanId == some sid) = true
    · rw [List.countP_cons_of_pos _ _ (by simpa using hu)] at h
      have ht : t.countP (fun u => u.salesmanId == some sid) = 0 := by omega
      simp [deleteOneUser, hu, List.filter_cons, countP_zero_filter _ _ ht]
    · have hu2 : (u.salesmanId == some sid) = false := by
        simpa using hu
      rw [List.countP_cons_of_neg _ _ (by simp [hu2])] at h
      simp [deleteOneUser, hu2, List.filter_cons, ih h]

theorem foldl_append_flatten {α β : Type} (g : α → List β) (l : List α) (acc : List β) :
    l.foldl (fun a s => a ++ g s) acc = acc ++ (l.map g).flatten := by
  induction l generalizing acc with
  | nil => simp
  | cons x xs ih => simp [List.foldl_cons, ih, List.append_assoc]

theorem orChain_all_falsy (r : Row) (ks : List String) (d : CellVal)
    (h : ∀ k ∈ ks, truthyO (getCell r k) = false) : orChain r ks d = d := by
  induction ks with
  | nil => rfl
  | cons k rest ih =>
    have hk := h k (by simp)
    unfold orChain
    cases hcell : getCell r k with
    | none => exact ih (fun k1 hk1 => h k1 (by simp [hk1]))
    | some v =>
      rw [hcell] at hk
      simp only [truthyO] at hk
      simp only [hk, if_false]
      exact ih (fun k1 hk1 => h k1 (by simp [hk1]))

theorem orChain_single (r : Row) (ks : List String) (d : CellVal) (k₀ : String)
    (v : CellVal) (hmem : k₀ ∈ ks) (hk : getCell r k₀ = some v)
    (h : ∀ k ∈ ks, k ≠ k₀ → getCell r k = none) :
    orChain r ks d = if v.truthy then v else d := by
  induction ks with
  | nil => cases hmem
  | cons k rest ih =>
    by_cases hkk : k = k₀
    · subst hkk
      unfold orChain
      rw [hk]
      by_cases htr : v.truthy
      · simp [htr]
      · simp only [htr, if_false, Bool.false_eq_true]
        refine orChain_all_falsy r rest d (fun k1 hk1 => ?_)
        by_cases hkk1 : k1 = k
        · subst hkk1
          rw [hk]
          simpa [truthyO] using htr
        · rw [h k1 (by simp [hk1]) hkk1]
          rfl
    · have hmem1 : k₀ ∈ rest := by
        rcases hmem with _ | hmem1
        · exact absurd rfl hkk
        · assumption
      have hknone : getCell r k = none := h k (by simp) hkk
      unfold orChain
      rw [hknone]
      exact ih hmem1 (fun k1 hk1 hne => h k1 (by simp [hk1]) hne)

theorem truthy_of_toNumber_nan (v : CellVal) (h : toNumber v = .nan) :
    v.truthy = true := by
  cases v with
  | str s =>
    simp only [CellVal.truthy]
    by_cases hs : s = ""
    · subst hs
      simp [toNumber, jsStringToNumber, jsTrim, trimChars] at h
    · simp [hs]
  | num q => simp [toNumber] at h
  | boolV b =>
    cases b <;> simp [toNumber] at h

theorem processUserRows_counts (rows : List Row) :
    ∀ (i s : ℕ) (store store2 : List UserRec) (p : ℕ × ℕ),
      processUserRows rows i s store = (some p, store2) →
      p.1 + p.2 = i + s + rows.length := by
  induction rows with
  | nil =>
    intro i s store store2 p h
    simp only [processUserRows] at h
    cases h
    simp
  | cons r rest ih =>
    intro i s store store2 p h
    simp only [processUserRows] at h
    cases hstep : stepUser r store with
    | skip =>
      rw [hstep] at h
      have := ih i (s + 1) store store2 p h
      simp [this]
      omega
    | ins u =>
      rw [hstep] at h
      have := ih (i + 1) s (store ++ [u]) store2 p h
      simp [this]
      omega
    | err =>
      rw [hstep] at h
      cases h

theorem postLeavesServer_errors (b : LeaveCreateBody) (store : List LeaveDoc) :
    (postLeavesServer b store).1 ≠ PostLeaveResp.created
    ∧ (postLeavesServer b store).2 = store := by
  have hval : validateLeave (serverLeaveDoc b) = false := by
    simp [validateLeave, serverLeaveDoc, reqStr]
  unfold postLeavesServer
  repeat' split
  all_goals simp_all

theorem postSalesServer_created_state (b : SaleBody) (store : List SaleDoc) :
    (postSalesServer b store).1 = PostSaleResp.created →
    (postSalesServer b store).2 = store ++ [presaveSale (saleDocOfBody b)] := by
  unfold postSalesServer
  repeat' split
  all_goals intro hcr
  all_goals (first
    | (simp_all; done)
    | (by_cases hv : validateSale (saleDocOfBody b) = true <;> simp_all))

theorem statsTotal_of_no_totals (sales : List SaleDoc) :
    ∀ acc : JSNum, (∀ s ∈ sales, s.totalAmount = none) →
      sales.foldl (fun a s => a.add (statsContribution s)) acc =
      sales.foldl (fun a s => a.add (s.quantity.mul s.price)) acc := by
  induction sales with
  | nil => intro acc _; rfl
  | cons s rest ih =>
    intro acc h
    have hs : s.totalAmount = none := h s (by simp)
    simp only [List.foldl_cons]
    rw [show statsContribution s = s.quantity.mul s.price by
      simp [statsContribution, hs]]
    exact ih _ (fun x hx => h x (by simp [hx]))

/-! ## Claim theorems -/

/-- Claim C6: running the destructive Product import twice with the same
workbook yields the same final products collection as running it once, both
for the mounted POST /api/upload-excel route and for the POST /upload-products
variant: the collection after an import is exactly the normalized batch, so a
second identical run recreates it with no duplicates and no growth. -/
theorem c6_product_import_idempotent :
    (∀ (wb : Workbook) (store : List ProductRec),
      importProducts wb (importProducts wb store) = importProducts wb store)
    ∧ (∀ (wb : Workbook) (store : List ProductRecFixed),
      importProductsFixed wb (importProductsFixed wb store) = importProductsFixed wb store) := by
  constructor
  · intro wb store
    simp [importProducts, filter_const_false]
  · intro wb store
    simp [importProductsFixed, filter_const_false]

/-- Claim C10: every request to src/server.js POST /api/leaves builds a
document whose fromDate and toDate are absent (both required) and whose
status is "Pending" (outside the lowercase enum), so the create fails
validation: the handler never answers success and the leaves collection is
unchanged by every call. -/
theorem c10_server_leave_create_always_fails :
    ∀ (b : LeaveCreateBody) (store : List LeaveDoc),
      (postLeavesServer b store).1 ≠ PostLeaveResp.created
      ∧ (postLeavesServer b store).2 = store :=
  fun b store => postLeavesServer_errors b store

/-- Claim C9: deleting a salesman user by salesmanId removes that user
(unique under the sparse index, hence the count hypothesis) together with
every Sale and every Leave carrying that salesmanId, while records of every
other salesmanId and the whole products collection are untouched. -/
theorem c9_delete_salesman_cascade :
    ∀ (sid : String) (st : AppState),
      jsTrim sid = sid →
      st.users.countP (fun u => u.salesmanId == some sid) ≤ 1 →
      (deleteUserCascade sid st).users
          = st.users.filter (fun u => !(u.salesmanId == some sid))
      ∧ (deleteUserCascade sid st).sales
          = st.sales.filter (fun s => !(s.salesmanId == sid))
      ∧ (deleteUserCascade sid st).leaves
          = st.leaves.filter (fun l => !(l.salesmanId == some sid))
      ∧ (deleteUserCascade sid st).products = st.products := by
  intro sid st htrim hcount
  refine ⟨?_, ?_, ?_, rfl⟩
  · simp only [deleteUserCascade, htrim]
    exact deleteOneUser_eq_filter sid st.users hcount
  · simp [deleteUserCascade, htrim]
  · simp [deleteUserCascade, htrim]

/-- Witness for C9 at a concrete two-salesman state: deleting SM1 keeps
exactly the SM2 records and the product. -/
theorem c9_delete_salesman_cascade_witness :
    jsTrim "SM1" = "SM1"
    ∧ stTwoSalesmen.users.countP (fun u => u.salesmanId == some "SM1") ≤ 1
    ∧ ((deleteUserCascade "SM1" stTwoSalesmen).users
          = stTwoSalesmen.users.filter (fun u => !(u.salesmanId == some "SM1"))
      ∧ (deleteUserCascade "SM1" stTwoSalesmen).sales
          = stTwoSalesmen.sales.filter (fun s => !(s.salesmanId == "SM1"))
      ∧ (deleteUserCascade "SM1" stTwoSalesmen).leaves
          = stTwoSalesmen.leaves.filter (fun l => !(l.salesmanId == some "SM1"))
      ∧ (deleteUserCascade "SM1" stTwoSalesmen).products = stTwoSalesmen.products) :=
  ⟨by decide, by decide,
    c9_delete_salesman_cascade "SM1" stTwoSalesmen (by decide) (by decide)⟩

/-- Claim C1 counterexample: POST /upload-leaves performs no duplicate check,
so a workbook whose first sheet holds the same (SalesmanID, FromDate) row
twice is inserted whole (success, count 2) and the resulting collection
violates the one-leave-per-(salesmanId, fromDate) invariant. -/
theorem c1_counterexample_upload_inserts_duplicate_pair :
    (uploadLeavesHandler [leaveRowS1, leaveRowS1] []).1 = UploadLeavesResp.okCount 2
    ∧ ¬ (leavePairs (uploadLeavesHandler [leaveRowS1, leaveRowS1] []).2).Nodup :=
  ⟨by decide, by decide⟩

/-- Claim C1 (amended): the single create of src/server.js POST /api/leaves
never inserts (its document always fails validation), so it trivially
preserves (salesmanId, fromDate)-uniqueness; the bulk POST /upload-leaves,
running with the unique index dropped at server startup, preserves the
invariant exactly when the incoming rows' pairs are pairwise distinct and
disjoint from the stored ones. -/
theorem c1_amended_leave_uniqueness :
    (∀ (b : LeaveCreateBody) (store : List LeaveDoc),
      (leavePairs store).Nodup → (leavePairs (postLeavesServer b store).2).Nodup)
    ∧ (∀ (rows : List Row) (store : List LeaveDoc),
      (leavePairs store ++ rows.map rowPair).Nodup →
      (leavePairs (uploadLeavesHandler rows store).2).Nodup) := by
  constructor
  · intro b store h
    rw [(postLeavesServer_errors b store).2]
    exact h
  · intro rows store h
    have hstore : (leavePairs store).Nodup := (List.nodup_append.mp h).1
    unfold uploadLeavesHandler
    split
    · exact hstore
    · split
      · exact hstore
      · split
        · show (leavePairs (store ++ rows.map mapLeaveRowTotal)).Nodup
          unfold leavePairs
          rw [List.map_append, List.map_map]
          exact h
        · exact hstore


/-- Witness for C1 (amended) at concrete inputs: a batch of two distinct
start dates on an empty collection keeps the pairs unique, as does the
(always failing) single create on a singleton collection. -/
theorem c1_amended_leave_uniqueness_witness :
    ((leavePairs [leaveSm1]).Nodup
      ∧ (leavePairs (postLeavesServer
          { salesmanId := some (.str "SM1"), salesmanName := some (.str "F")
            date := some (.str "2024-02-01"), reason := some (.str "r") }
          [leaveSm1]).2).Nodup)
    ∧ ((leavePairs [] ++ [leaveRowS1, leaveRowS1b].map rowPair).Nodup
      ∧ (leavePairs (uploadLeavesHandler [leaveRowS1, leaveRowS1b] []).2).Nodup) :=
  ⟨⟨by decide,
    c1_amended_leave_uniqueness.1
      { salesmanId := some (.str "SM1"), salesmanName := some (.str "F")
        date := some (.str "2024-02-01"), reason := some (.str "r") }
      [leaveSm1] (by decide)⟩,
   ⟨by decide,
    c1_amended_leave_uniqueness.2 [leaveRowS1, leaveRowS1b] [] (by decide)⟩⟩

/-- Claim C7: the mounted product bulk import (POST /api/upload-excel)
processes every sheet of the workbook — the inserted batch is the
concatenation of all sheets' normalized rows in sheet order — and a row with
neither "Brand" nor "brand" column gets the enclosing sheet's name as its
normalized brand. -/
theorem c7_upload_excel_all_sheets :
    (∀ wb : Workbook,
      uploadExcelBatch wb = (wb.map (fun s => s.2.map (normalizeProductRow s.1))).flatten)
    ∧ (∀ (sheet : String) (r : Row),
      getCell r "Brand" = none → getCell r "brand" = none →
      (normalizeProductRow sheet r).brand = .str sheet) := by
  constructor
  · intro wb
    unfold uploadExcelBatch
    rw [foldl_append_flatten]
    simp
  · intro sheet r h1 h2
    simp [normalizeProductRow, orChain, h1, h2]

/-- Witness for C7: the two-sheet workbook flattens both sheets in order, and
the brand-less row of sheet "Audio" is normalized with brand "Audio". -/
theorem c7_upload_excel_all_sheets_witness :
    (uploadExcelBatch wbTwoSheets
      = (wbTwoSheets.map (fun s => s.2.map (normalizeProductRow s.1))).flatten)
    ∧ (getCell rowNoBrand "Brand" = none ∧ getCell rowNoBrand "brand" = none
      ∧ (normalizeProductRow "Audio" rowNoBrand).brand = .str "Audio") :=
  ⟨c7_upload_excel_all_sheets.1 wbTwoSheets,
   by decide, by decide,
   c7_upload_excel_all_sheets.2 "Audio" rowNoBrand (by decide) (by decide)⟩

/-- Claim C2: on the part_004 variant of POST /api/leaves, a well-formed
leave-create request for (S, D) with no stored leave matching (S, D) succeeds
the first time, appending exactly one document, and submitting the identical
request again answers the duplicate (client) error and leaves the collection
unchanged. -/
theorem c2_leave_create_then_conflict :
    ∀ (b : LeaveBody) (store : List LeaveDoc) (S D : String),
      b.salesmanId = some (.str S) →
      b.date = some (.str D) →
      b.fromDate = some (.str D) →
      validateLeave (buildLeaveDoc b) = true →
      store.any (fun d => d.salesmanId == some (jsTrim S) && d.date == some D) = false →
      store.any (fun d => d.salesmanId == some (jsTrim S) && d.fromDate == some D) = false →
      (postLeavesPart4 b store).1 = PostLeaveResp.created
      ∧ (postLeavesPart4 b store).2 = store ++ [presaveLeave (buildLeaveDoc b)]
      ∧ postLeavesPart4 b ((postLeavesPart4 b store).2)
          = (PostLeaveResp.duplicate, (postLeavesPart4 b store).2) := by
  intro b store S D hS hD hF hval h5 h6
  have hA : (buildLeaveDoc b).salesmanId = some (jsTrim S) := by
    simp [buildLeaveDoc, hS, jsStringOfCell]
  have hB : (buildLeaveDoc b).fromDate = some D := by
    simp [buildLeaveDoc, hF, jsStringOfCell]
  have e1 : store.any (fun d =>
      optMatchBy (fun v => jsTrim (jsStringOfCell v)) b.salesmanId d.salesmanId
        && optMatchBy jsStringOfCell b.date d.date) = false := by
    rw [hS, hD]
    simpa [optMatchBy, jsStringOfCell] using h5
  have e2 : store.any (fun d =>
      d.salesmanId == (buildLeaveDoc b).salesmanId
        && d.fromDate == (buildLeaveDoc b).fromDate) = false := by
    rw [hA, hB]
    exact h6
  have hrun1 : postLeavesPart4 b store
      = (PostLeaveResp.created, store ++ [presaveLeave (buildLeaveDoc b)]) := by
    unfold postLeavesPart4
    rw [e1, hval, e2]
    simp
  have hrun2 : postLeavesPart4 b (store ++ [presaveLeave (buildLeaveDoc b)])
      = (PostLeaveResp.duplicate, store ++ [presaveLeave (buildLeaveDoc b)]) := by
    unfold postLeavesPart4
    have e3 : (store ++ [presaveLeave (buildLeaveDoc b)]).any (fun d =>
        optMatchBy (fun v => jsTrim (jsStringOfCell v)) b.salesmanId d.salesmanId
          && optMatchBy jsStringOfCell b.date d.date) = true := by
      rw [hS, hD]
      rw [List.any_append]
      have : (presaveLeave (buildLeaveDoc b)).salesmanId = some (jsTrim S) := by
        simpa [presaveLeave] using hA
      have h2 : (presaveLeave (buildLeaveDoc b)).date = some D := by
        simpa [presaveLeave] using hB
      simp [optMatchBy, jsStringOfCell, this, h2]
    rw [e3]
    simp
  rw [hrun1]
  exact ⟨rfl, rfl, hrun2⟩

/-- Witness for C2: the concrete scenario salesmanId "S1",
fromDate "2024-02-15" against an empty collection. -/
theorem c2_leave_create_then_conflict_witness :
    (leaveBodyS1.salesmanId = some (.str "S1")
      ∧ validateLeave (buildLeaveDoc leaveBodyS1) = true)
    ∧ ((postLeavesPart4 leaveBodyS1 []).1 = PostLeaveResp.created
      ∧ (postLeavesPart4 leaveBodyS1 []).2 = [] ++ [presaveLeave (buildLeaveDoc leaveBodyS1)]
      ∧ postLeavesPart4 leaveBodyS1 ((postLeavesPart4 leaveBodyS1 []).2)
          = (PostLeaveResp.duplicate, (postLeavesPart4 leaveBodyS1 []).2)) :=
  ⟨⟨by decide, by decide⟩,
   c2_leave_create_then_conflict leaveBodyS1 [] "S1" "2024-02-15"
     (by decide) (by decide) (by decide) (by decide) (by decide) (by decide)⟩

/-- Claim C3: wherever totalAmount is not explicitly supplied, the stored or
reported amount is quantity times price: the Sale pre-save hook computes it
for truthy quantity and price; POST /api/sales stores
Number(totalAmount or quantity times price) and appends exactly the hooked
document when it answers created; and the stats reduce falls back to
quantity times price for every record lacking a stored totalAmount. -/
theorem c3_totalAmount_derived :
    (∀ d : SaleDoc, d.totalAmount = none → d.quantity.truthy = true →
      d.price.truthy = true →
      (presaveSale d).totalAmount = some (d.quantity.mul d.price))
    ∧ (∀ (b : SaleBody) (store : List SaleDoc), b.totalAmount = none →
      (presaveSale (saleDocOfBody b)).totalAmount
          = some ((toNumberO b.quantity).mul (toNumberO b.price))
      ∧ ((postSalesServer b store).1 = PostSaleResp.created →
        (postSalesServer b store).2 = store ++ [presaveSale (saleDocOfBody b)]))
    ∧ (∀ sales : List SaleDoc, (∀ s ∈ sales, s.totalAmount = none) →
      statsTotalAmount sales = sumQuantityPrice sales) := by
  refine ⟨?_, ?_, ?_⟩
  · intro d h hq hp
    simp [presaveSale, h, hq, hp, truthyON]
  · intro b store h
    constructor
    · unfold presaveSale
      split
      · simp [saleDocOfBody]
      · simp [saleDocOfBody, h, truthyO]
    · exact postSalesServer_created_state b store
  · intro sales h
    unfold statsTotalAmount sumQuantityPrice
    exact statsTotal_of_no_totals sales (.num 0) h

/-- Witness for C3 at concrete records: a stored sale without totalAmount
gets 30 = 3 times 10 from the hook, the POST body without totalAmount stores
100 = 2 times 50, and the stats total of one legacy record equals its
quantity-times-price sum. -/
theorem c3_totalAmount_derived_witness :
    ((presaveSale saleDocNoTotal).totalAmount
        = some (saleDocNoTotal.quantity.mul saleDocNoTotal.price))
    ∧ ((presaveSale (saleDocOfBody saleBodyNoTotal)).totalAmount
        = some ((toNumberO saleBodyNoTotal.quantity).mul (toNumberO saleBodyNoTotal.price)))
    ∧ (statsTotalAmount [saleDocNoTotal] = sumQuantityPrice [saleDocNoTotal]) :=
  ⟨c3_totalAmount_derived.1 saleDocNoTotal rfl (by decide) (by decide),
   (c3_totalAmount_derived.2.1 saleBodyNoTotal [] rfl).1,
   c3_totalAmount_derived.2.2 [saleDocNoTotal] (by decide)⟩

/-- Claim C5 counterexample: in the tolerant sales importer (part_002) a
non-numeric Quantity cell resolves to the fallback 1, which is neither 0 nor
the NaN sentinel, refuting the claim that a failed numeric coercion always
resolves to 0 or to a detectable sentinel. -/
theorem c5_counterexample_quantity_defaults_to_one :
    toNumber (.str "abc") = JSNum.nan
    ∧ (mapSaleRowTolerant rowQtyAbc).quantity = JSNum.num 1
    ∧ (mapSaleRowTolerant rowQtyAbc).quantity ≠ JSNum.num 0
    ∧ (mapSaleRowTolerant rowQtyAbc).quantity ≠ JSNum.nan := by
  decide

/-- Claim C5 (amended): numeric coercion of a non-numeric value never raises
and never drops a row (the row mappers are total); the normalized field
resolves to NaN (a detectable sentinel) in the strict sales importer and in
the product importer, while the tolerant sales importer substitutes each
field's fallback: 1 for quantity, 0 for price, and quantity times price for
totalAmount. -/
theorem c5_amended_numeric_coercion :
    (∀ rows : List Row, (rows.map mapSaleRowStrict).length = rows.length
      ∧ (rows.map mapSaleRowTolerant).length = rows.length)
    ∧ (∀ (r : Row) (v : CellVal), getCell r "Quantity" = some v → toNumber v = .nan →
      (mapSaleRowStrict r).quantity = .nan)
    ∧ (∀ (r : Row) (v : CellVal), getCell r "RSP+VAT" = some v → toNumber v = .nan →
      (mapSaleRowStrict r).price = .nan)
    ∧ (∀ (r : Row) (v : CellVal), getCell r "Total Amount" = some v → toNumber v = .nan →
      (mapSaleRowStrict r).totalAmount = .nan)
    ∧ (∀ (r : Row) (v : CellVal), getCell r "Quantity" = some v → toNumber v = .nan →
      (mapSaleRowTolerant r).quantity = .num 1)
    ∧ (∀ (r : Row) (v w : CellVal), getCell r "Price" = some v → toNumber v = .nan →
      getCell r "RSP+VAT" = some w → toNumber w = .nan →
      (mapSaleRowTolerant r).price = .num 0)
    ∧ (∀ (r : Row) (v : CellVal), getCell r "Total Amount" = some v → toNumber v = .nan →
      (mapSaleRowTolerant r).totalAmount
        = (mapSaleRowTolerant r).quantity.mul (mapSaleRowTolerant r).price)
    ∧ (∀ (sheet : String) (r : Row) (v : CellVal), getCell r " RSP+Vat " = some v →
      toNumber v = .nan → (normalizeProductRow sheet r).rspVat = .nan) := by
  refine ⟨?_, ?_, ?_, ?_, ?_, ?_, ?_, ?_⟩
  · intro rows
    simp
  · intro r v h1 h2
    simp [mapSaleRowStrict, toNumberO, h1, h2]
  · intro r v h1 h2
    simp [mapSaleRowStrict, toNumberO, h1, h2]
  · intro r v h1 h2
    simp [mapSaleRowStrict, toNumberO, h1, h2]
  · intro r v h1 h2
    simp [mapSaleRowTolerant, toNumberO, h1, h2, JSNum.orElse, JSNum.truthy]
  · intro r v w h1 h2 h3 h4
    simp [mapSaleRowTolerant, toNumberO, h1, h2, h3, h4, JSNum.orElse, JSNum.truthy]
  · intro r v h1 h2
    simp [mapSaleRowTolerant, toNumberO, h1, h2, JSNum.orElse, JSNum.truthy]
  · intro sheet r v h1 h2
    have ht := truthy_of_toNumber_nan v h2
    simp [normalizeProductRow, orChain, h1, ht, h2]

/-- Witness for C5 (amended) at concrete rows with non-numeric text. -/
theorem c5_amended_numeric_coercion_witness :
    (([rowQtyAbc].map mapSaleRowStrict).length = [rowQtyAbc].length
      ∧ ([rowQtyAbc].map mapSaleRowTolerant).length = [rowQtyAbc].length)
    ∧ (mapSaleRowStrict rowQtyAbc).quantity = .nan
    ∧ (mapSaleRowStrict rowPriceAbc).price = .nan
    ∧ (mapSaleRowStrict rowPriceAbc).totalAmount = .nan
    ∧ (mapSaleRowTolerant rowQtyAbc).quantity = .num 1
    ∧ (mapSaleRowTolerant rowPriceAbc).price = .num 0
    ∧ (mapSaleRowTolerant rowPriceAbc).totalAmount
        = (mapSaleRowTolerant rowPriceAbc).quantity.mul (mapSaleRowTolerant rowPriceAbc).price
    ∧ (normalizeProductRow "Audio" rowRspAbc).rspVat = .nan :=
  ⟨c5_amended_numeric_coercion.1 [rowQtyAbc],
   c5_amended_numeric_coercion.2.1 rowQtyAbc (.str "abc") (by decide) (by decide),
   c5_amended_numeric_coercion.2.2.1 rowPriceAbc (.str "n/a") (by decide) (by decide),
   c5_amended_numeric_coercion.2.2.2.1 rowPriceAbc (.str "oops") (by decide) (by decide),
   c5_amended_numeric_coercion.2.2.2.2.1 rowQtyAbc (.str "abc") (by decide) (by decide),
   c5_amended_numeric_coercion.2.2.2.2.2.1 rowPriceAbc (.str "abc") (.str "n/a")
     (by decide) (by decide) (by decide) (by decide),
   c5_amended_numeric_coercion.2.2.2.2.2.2.1 rowPriceAbc (.str "oops")
     (by decide) (by decide),
   c5_amended_numeric_coercion.2.2.2.2.2.2.2 "Audio" rowRspAbc (.str "abc")
     (by decide) (by decide)⟩

/-- Claim C8 counterexample: a row with every required field present, a fresh
username, but role "manager" is neither skipped nor inserted — the enum
validation error aborts the import with an error response and no summary,
refuting the claimed skip-iff characterization and the counting identity. -/
theorem c8_counterexample_invalid_role_aborts :
    userRowMissing userRowManager = false
    ∧ usernameTaken userRowManager [] = false
    ∧ uploadUsersHandler [userRowManager] [] = (UploadUsersResp.err, []) := by
  decide

/-- Claim C8 (amended): whenever the user import returns a summary,
inserted + skipped = totalRows with totalRows the row count; a row is
skipped exactly when it misses username, password, name or role, or when its
role is textual and its username already exists; rows that throw instead
(non-text role, role outside the enum, duplicate salesmanId) abort the import
with an error response.  The claim's 5-row scenario reports
inserted=3, skipped=2, totalRows=5. -/
theorem c8_amended_user_import :
    (∀ (rows : List Row) (store : List UserRec) (i s t : ℕ) (store2 : List UserRec),
      uploadUsersHandler rows store = (.summary i s t, store2) →
      i + s = t ∧ t = rows.length)
    ∧ (∀ (r : Row) (store : List UserRec),
      stepUser r store = .skip
        ↔ (userRowMissing r = true ∨ (roleIsString r = true ∧ usernameTaken r store = true)))
    ∧ uploadUsersHandler [userRowA, userRowB, userRowC, userRowD, userRowE] [userCarol]
        = (.summary 3 2 5,
           [userCarol,
            { username := "alice", password := "p1", name := "Alice"
              role := "admin", salesmanId := none },
            { username := "dave", password := "p4", name := "Dave"
              role := "admin", salesmanId := none },
            { username := "eve", password := "p5", name := "Eve"
              role := "admin", salesmanId := none }]) := by
  refine ⟨?_, ?_, ?_⟩
  · intro rows store i s t store2 h
    unfold uploadUsersHandler at h
    rcases hp : processUserRows rows 0 0 store with ⟨op, st3⟩
    rw [hp] at h
    cases op with
    | none => cases h
    | some p =>
      have hc := processUserRows_counts rows 0 0 store st3 p hp
      cases h
      constructor
      · simpa using hc
      · rfl
  · intro r store
    unfold stepUser
    by_cases hm : userRowMissing r = true
    · simp [hm]
    · cases hrole : getCell r "Role" with
      | none => simp [roleIsString, hrole, hm]
      | some v =>
        cases v with
        | str s0 =>
          by_cases ht : usernameTaken r store = true
          · simp [hrole, ht, roleIsString, hm]
          · simp only [hm, Bool.false_eq_true, if_false, hrole, ht, roleIsString,
              false_or, false_and, iff_false]
            repeat' split
            all_goals simp_all
        | num q => simp [roleIsString, hrole, hm]
        | boolV b0 => simp [roleIsString, hrole, hm]
  · decide

/-- Witness for C8 (amended): a one-row import summary satisfies the count
identity, and a row missing its password is skipped. -/
theorem c8_amended_user_import_witness :
    (1 + 0 = 1 ∧ 1 = ([userRowA] : List Row).length)
    ∧ stepUser userRowB [] = UStep.skip :=
  ⟨c8_amended_user_import.1 [userRowA] [] 1 0 1
      [{ username := "alice", password := "p1", name := "Alice"
         role := "admin", salesmanId := none }]
      (by decide),
   (c8_amended_user_import.2.1 userRowB []).mpr (Or.inl (by decide))⟩

/-- Claim C4: for every target field of the product normalizer, a row
carrying its value under exactly one of the field's supported header
spellings (all other spellings of that field absent) normalizes to the same
canonical field value regardless of which spelling carried it. -/
theorem c4_header_spelling_invariance :
    ∀ (f : PField) (k₁ k₂ : String) (v : CellVal) (sheet : String) (r₁ r₂ : Row),
      k₁ ∈ f.candidates → k₂ ∈ f.candidates →
      getCell r₁ k₁ = some v → getCell r₂ k₂ = some v →
      (∀ k ∈ f.candidates, k ≠ k₁ → getCell r₁ k = none) →
      (∀ k ∈ f.candidates, k ≠ k₂ → getCell r₂ k = none) →
      (normalizeProductRow sheet r₁).fieldVal f
        = (normalizeProductRow sheet r₂).fieldVal f := by
  intro f k₁ k₂ v sheet r₁ r₂ hm₁ hm₂ hk₁ hk₂ hx₁ hx₂
  cases f
  all_goals
    simp only [PField.candidates] at hm₁ hm₂ hx₁ hx₂
  all_goals
    simp only [normalizeProductRow, ProductRec.fieldVal]
  all_goals
    rw [orChain_single r₁ _ _ k₁ v hm₁ hk₁ hx₁, orChain_single r₂ _ _ k₂ v hm₂ hk₂ hx₂]

/-- Witness for C4: "Item Code" and "itemCode" carry the same value in
otherwise spelling-free rows and normalize to the same itemCode. -/
theorem c4_header_spelling_invariance_witness :
    (getCell [("Item Code", CellVal.str "A1")] "Item Code" = some (.str "A1")
      ∧ getCell [("itemCode", CellVal.str "A1")] "itemCode" = some (.str "A1"))
    ∧ (normalizeProductRow "S" [("Item Code", CellVal.str "A1")]).fieldVal .itemCode
        = (normalizeProductRow "S" [("itemCode", CellVal.str "A1")]).fieldVal .itemCode :=
  ⟨⟨by decide, by decide⟩,
   c4_header_spelling_invariance .itemCode "Item Code" "itemCode" (.str "A1") "S"
     [("Item Code", CellVal.str "A1")] [("itemCode", CellVal.str "A1")]
     (by decide) (by decide) (by decide) (by decide) (by decide) (by decide)⟩

end SalesBackend
